import Mathlib

/-
Verification development for the SQL-chat gateway (`app.py`).

The pipeline under study: a FastAPI application exposing
  POST /api/execute  -- validate and run a caller-supplied SQL query,
  POST /api/generate -- turn a natural-language question into SQL via an
                        external model, validate, execute, and summarize.

The pure core (`is_safe_select`, the code-fence stripping regex, the
request-handling control flow of `execute_query`, `generate_query`,
`generate_sql_with_ai`, `generate_summary`) is embedded shallowly below.
External effects (the database round trip and the two model providers) are
passed in as explicit oracle functions, so every definition is executable
and each request handler is a pure function of its inputs and oracles.
-/

namespace SqlChat

/-- Characters matched by Python's `\s` regex class and stripped by
`str.strip()` on `str` inputs (ASCII whitespace, the C1 separators,
NEL, NBSP and the Unicode space separators). -/
def pyWsChar (c : Char) : Bool :=
  c == ' ' || c == '\t' || c == '\n' || c == '\r' || c == '\x0b' || c == '\x0c' ||
  c == '\x1c' || c == '\x1d' || c == '\x1e' || c == '\x1f' || c == '\x85' || c == '\xa0' ||
  c == ' ' || c == ' ' || c == ' ' || c == ' ' || c == ' ' ||
  c == ' ' || c == ' ' || c == ' ' || c == ' ' || c == ' ' ||
  c == ' ' || c == ' ' || c == ' ' || c == ' ' || c == ' ' ||
  c == ' ' || c == '　'

/-- Drop the longest whitespace prefix of a character list. -/
def dropLeadingWs : List Char → List Char
  | [] => []
  | c :: rest => if pyWsChar c then dropLeadingWs rest else c :: rest

/-- Python `str.strip()`: remove leading and trailing whitespace. -/
def pyStrip (s : String) : String :=
  String.mk ((dropLeadingWs ((dropLeadingWs s.data).reverse)).reverse)

/-- `beginsWith s pat` is true when `pat` is a prefix of `s`. -/
def beginsWith : List Char → List Char → Bool
  | _, [] => true
  | [], _ :: _ => false
  | c :: cs, p :: ps => c == p && beginsWith cs ps

/-- `containsSub s pat` is true when `pat` occurs as a contiguous
substring of `s`. -/
def containsSub : List Char → List Char → Bool
  | [], pat => pat.isEmpty
  | c :: rest, pat => beginsWith (c :: rest) pat || containsSub rest pat

/-- Length of the longest whitespace prefix (the greedy `\s*` match). -/
def wsRun : List Char → Nat
  | [] => 0
  | c :: rest => if pyWsChar c then wsRun rest + 1 else 0

/-- In MULTILINE mode, `$` matches at end of input or just before a newline. -/
def atLineEnd : List Char → Bool
  | [] => true
  | c :: _ => c == '\n'

/-- The fence marker `"```"` of the stripping regex, as characters. -/
def fence3 : List Char := '`' :: '`' :: '`' :: []

/-- The opening-fence literal `"```sql"` of the stripping regex. -/
def fenceSql : List Char := '`' :: '`' :: '`' :: 's' :: 'q' :: 'l' :: []

/-- A newline followed by the fence marker (the shape of the trailing
fence of a wrapped body). -/
def nlFence : List Char := '\n' :: '`' :: '`' :: '`' :: []

/-- Match of the first regex branch ```` ^```sql\s* ```` at the current
position of the scan (`lineStart` records whether `^` holds there, i.e.
the position is 0 or the previous character of the original input is a
newline).  Returns the length of the (greedy) match. -/
def fenceOpenMatch (lineStart : Bool) (s : List Char) : Option Nat :=
  if lineStart && beginsWith s fenceSql then
    some (6 + wsRun (s.drop 6))
  else none

/-- Match of the second regex branch ```` \s*```$ ```` at the current
position: a greedy whitespace run, then three backticks ending a line.
Because a backtick is not whitespace, the greedy `\s*` can only stop at
the end of the maximal whitespace run, so no backtracking arises. -/
def fenceCloseMatch (s : List Char) : Option Nat :=
  let w := wsRun s
  if beginsWith (s.drop w) fence3 && atLineEnd (s.drop (w + 3)) then
    some (w + 3)
  else none

/-- Regex alternation at one position: try the first branch, then the
second. -/
def firstMatch (lineStart : Bool) (s : List Char) : Option Nat :=
  (fenceOpenMatch lineStart s).elim (fenceCloseMatch s) some

/-- Whether the last character of a match is a newline: decides `^` for
the position following the replaced match. -/
def endsWithNewline (l : List Char) : Bool :=
  l.getLast? == some '\n'

/-- Left-to-right scan of Python's
`re.sub(r"^```sql\s*|\s*```$", "", query, flags=re.MULTILINE)`:
at each position try the two branches in order; on a match remove
it and resume right after it (matches are never empty, each consumes at
least one character, so a fuel of `length + 1` always suffices; the
fuel-exhausted fallback returns the remaining input unchanged). -/
def fenceSubGo : Nat → Bool → List Char → List Char
  | 0, _, s => s
  | _ + 1, _, [] => []
  | fuel + 1, lineStart, c :: rest =>
    (firstMatch lineStart (c :: rest)).elim
      (c :: fenceSubGo fuel (c == '\n') rest)
      (fun n => fenceSubGo fuel (endsWithNewline ((c :: rest).take n)) (rest.drop (n - 1)))

/-- The code-fence stripping transform applied to queries and model
output (`query = re.sub(r"^```sql\s*|\s*```$", "", query, flags=re.MULTILINE)`
at lines 114 and 191 of `app.py`). -/
def strip_code_fence (s : String) : String :=
  String.mk (fenceSubGo (s.data.length + 1) true s.data)

/-- ASCII upper-casing of one character. -/
def asciiUpper (c : Char) : Char :=
  if 'a' ≤ c ∧ c ≤ 'z' then Char.ofNat (c.toNat - 32) else c

/-- Python `str.upper()` restricted to ASCII letters (the only use in the
source is on the dialect names `"postgresql"` / `"mysql"`). -/
def pyUpper (s : String) : String :=
  String.mk (s.data.map asciiUpper)

/-- Longest alphabetic prefix of a character list. -/
def takeAlpha : List Char → List Char
  | [] => []
  | c :: rest => if c.isAlpha then c :: takeAlpha rest else []

/-- Models the statement-type classification of the `sqlparse` library
(`Statement.get_type`): the first keyword of the statement, upper-cased,
when it is a DML or DDL statement keyword, and `"UNKNOWN"` otherwise
(in particular for empty, whitespace-only or unparseable statements). -/
def sqlKeywordType (word : String) : String :=
  let w := pyUpper word
  if w = "SELECT" ∨ w = "INSERT" ∨ w = "UPDATE" ∨ w = "DELETE" ∨
     w = "MERGE" ∨ w = "REPLACE" then w
  else if w = "CREATE" ∨ w = "ALTER" ∨ w = "DROP" ∨ w = "TRUNCATE" ∨
          w = "GRANT" ∨ w = "REVOKE" then w
  else "UNKNOWN"

/-- Models `stmt.get_type()` of `sqlparse`: skip leading whitespace, read
the first word and classify it. -/
def get_type (stmt : String) : String :=
  sqlKeywordType (String.mk (takeAlpha (dropLeadingWs stmt.data)))

/-- Split a character stream into statements at semicolons, the semicolon
staying attached to the statement it terminates (as `sqlparse` does). -/
def splitStmtsAux : List Char → List Char → List (List Char)
  | acc, [] => [acc.reverse]
  | acc, c :: rest =>
    if c == ';' then (acc.reverse ++ [';']) :: splitStmtsAux [] rest
    else splitStmtsAux (c :: acc) rest

/-- An empty remainder after the final semicolon produces no statement of
its own (`sqlparse.parse("x;")` yields one statement, and
`sqlparse.parse("")` yields none). -/
def dropLastEmpty (l : List (List Char)) : List (List Char) :=
  match l.getLast? with
  | some [] => l.dropLast
  | _ => l

/-- Models `sqlparse.parse`: the list of top-level statements of the
input text.  The model splits at every semicolon; `sqlparse` additionally
protects semicolons inside string literals and comments, which no claim
below depends on.  The empty input parses to the empty statement list. -/
def sqlparse_parse (sql : String) : List String :=
  (dropLastEmpty (splitStmtsAux [] sql.data)).map String.mk

/-- `is_safe_select` from `app.py` (lines 74-79): parse the text and
return `False` as soon as some statement's type is not `"SELECT"`,
otherwise `True`. -/
def is_safe_select (sql : String) : Bool :=
  (sqlparse_parse sql).all (fun stmt => get_type stmt == "SELECT")

/-- A result row, as produced by `dict(zip(columns, row))`: an ordered
association of column names to values.  Values are abstracted as the
strings their Python `repr` renders to (no claim inspects a value). -/
abbrev Row : Type := List (String × String)

/-- Python `str` of one row dict: `\x7b'col': value, ...\x7d`. -/
def pyReprRow (r : Row) : String :=
  "\x7b" ++ String.intercalate ", "
    (r.map (fun kv => "\x27" ++ kv.1 ++ "\x27: " ++ kv.2)) ++ "\x7d"

/-- Python `str` of a list of row dicts (the `str(results[:3])` sample
embedded in the summarization prompt). -/
def pyReprRows (rows : List Row) : String :=
  "[" ++ String.intercalate ", " (rows.map pyReprRow) ++ "]"

/-- Outcome of the database round trip performed inside
`with engine.connect() as connection:` for a given SQL text: rows
materialized as a list of dicts, a `SQLAlchemyError`, or any other
exception.  The database is an oracle supplied per request. -/
inductive DbResult where
  | ok (rows : List Row)
  | sqlError (msg : String)
  | otherError (msg : String)
deriving DecidableEq

/-- An HTTP outcome of a request handler: a success value, or an
`HTTPException(status_code, detail)`. -/
inductive HttpResponse (α : Type) where
  | ok (value : α)
  | error (status : Nat) (detail : String)
deriving DecidableEq

/-- Starlette's `str()` of an `HTTPException` (what `str(e)` produces
when the blanket `except Exception` re-wraps a caught `HTTPException`). -/
def http_exception_str (status : Nat) (detail : String) : String :=
  toString status ++ ": " ++ detail

/-- The success payload of `/api/execute`:
`\x7b"query": query, "results": results\x7d`. -/
structure ExecOk where
  query : String
  results : List Row
deriving DecidableEq

/-- `execute_query` from `app.py` (lines 108-132), with the database
round trip abstracted as the oracle `db`.  The second component records
whether control reached the connection-opening step
(`with engine.connect()`).  Control flow of the source:
the handler strips the query, removes code fences, validates it, builds
the engine URL and connects; an `HTTPException(400)` raised for a
non-SELECT query inside the `try` block is caught by the handler's own
`except Exception` clause and re-raised as a 500 whose detail is `str(e)`;
a `ValueError` from `get_db_url` is likewise re-raised as a 500;
a `SQLAlchemyError` becomes a 400. -/
def execute_query (db : String → DbResult) (dbType : String) (rawQuery : String) :
    HttpResponse ExecOk × Bool :=
  let query := strip_code_fence (pyStrip rawQuery)
  if is_safe_select query = false then
    (HttpResponse.error 500 (http_exception_str 400 "Only SELECT queries are allowed"), false)
  else if dbType ≠ "postgresql" ∧ dbType ≠ "mysql" then
    (HttpResponse.error 500 ("Unsupported database type: " ++ dbType), false)
  else
    match db query with
    | DbResult.ok rows => (HttpResponse.ok ⟨query, rows⟩, true)
    | DbResult.sqlError m => (HttpResponse.error 400 ("SQL execution failed: " ++ m), true)
    | DbResult.otherError m => (HttpResponse.error 500 m, true)

/-- The two model providers the source dispatches between. -/
inductive Provider where
  | openai
  | gemini
deriving DecidableEq

/-- The fields of a generation request used by the AI path
(`QueryRequest` in `app.py`; the connection fields other than `dbType`
only feed the database oracle). -/
structure GenRequest where
  aiProvider : String
  apiKey : String
  dbType : String
  query : String
  schema : String
deriving DecidableEq

/-- The SQL-generation prompt built by `generate_sql_with_ai`
(lines 158-170). -/
def generation_prompt (req : GenRequest) : String :=
  "\n    Convert the following user query into a read-only " ++ pyUpper req.dbType ++
  " SELECT query.\n    \n    Database Schema:\n    " ++ req.schema ++
  "\n    \n    Rules:\n    - ONLY generate SELECT statements\n    - Use proper " ++
  pyUpper req.dbType ++
  " syntax\n    - Return only the SQL query, no explanations\n    \n    User Query: " ++
  req.query ++ "\n    "

/-- `generate_sql_with_ai` from `app.py` (lines 157-199), with both model
clients abstracted as the oracle `callModel` (prompt in, completion text
or exception out).  The second component records which provider was
invoked: the source selects OpenAI when `aiProvider == "openai"` and
otherwise falls into the Gemini branch (`else:  # Gemini API`) — there is
no rejection branch.  On a model failure, or when the cleaned completion
fails `is_safe_select`, the handler raises `HTTPException(500,
"AI generation failed: ...")`. -/
def generate_sql_with_ai (callModel : Provider → String → Except String String)
    (req : GenRequest) : Except (Nat × String) String × Option Provider :=
  let prompt := generation_prompt req
  let provider := if req.aiProvider == "openai" then Provider.openai else Provider.gemini
  match callModel provider prompt with
  | Except.error e =>
      (Except.error (500, "AI generation failed: " ++ e), some provider)
  | Except.ok rawText =>
      let sql := strip_code_fence (pyStrip rawText)
      if is_safe_select sql = false then
        (Except.error (500,
          "AI generation failed: Generated query is not a SELECT statement, only SELECT queries are allowed"),
         some provider)
      else (Except.ok sql, some provider)

/-- The summarization prompt built by `generate_summary` (lines 206-214):
it embeds `request.query`, the row count and `str(results[:3])`. -/
def summary_prompt (query : String) (results : List Row) : String :=
  "\n    Summarize the following query results in 1-2 clear sentences.\n    \n    User Question: " ++
  query ++ "\n    Results Count: " ++ toString results.length ++
  "\n    Sample Data: " ++ pyReprRows (results.take 3) ++
  "\n    \n    Provide a concise, helpful answer.\n    "

/-- `generate_summary` from `app.py` (lines 202-234).  Returns the summary
together with the prompt passed to the model, when a model call was made
(`none` when the result list is empty and the call is skipped).  A model
failure is absorbed by the bare `except:` and degraded to the fixed
row-count message. -/
def generate_summary (callModel : Provider → String → Except String String)
    (req : GenRequest) (results : List Row) : String × Option String :=
  if results.isEmpty then ("No results found.", none)
  else
    let provider := if req.aiProvider == "openai" then Provider.openai else Provider.gemini
    let prompt := summary_prompt req.query results
    match callModel provider prompt with
    | Except.ok text => (pyStrip text, some prompt)
    | Except.error _ => ("Found " ++ toString results.length ++ " results.", some prompt)

/-- The success payload of `/api/generate`. -/
structure GenerateOk where
  sql_query : String
  results : List Row
  summary : String
deriving DecidableEq

/-- `generate_query` from `app.py` (lines 135-154), with the model and
database oracles explicit.  The second component records the prompt
passed to the summarization model call, if one was made.  Control flow of
the source: generate SQL, then `request.query = sql_query` (the request
object is mutated, so every later read of `request.query` sees the
generated SQL), execute, summarize; any `HTTPException` raised by the
inner steps is caught by the handler's `except Exception` and re-raised
as a 500 whose detail is `str(e)`. -/
def generate_query (callModel : Provider → String → Except String String)
    (db : String → DbResult) (req : GenRequest) :
    HttpResponse GenerateOk × Option String :=
  match generate_sql_with_ai callModel req with
  | (Except.error st, _) =>
      (HttpResponse.error 500 (http_exception_str st.1 st.2), none)
  | (Except.ok sql_query, _) =>
      let req2 : GenRequest := { req with query := sql_query }
      match execute_query db req2.dbType req2.query with
      | (HttpResponse.error code detail, _) =>
          (HttpResponse.error 500 (http_exception_str code detail), none)
      | (HttpResponse.ok execOk, _) =>
          let s := generate_summary callModel req2 execOk.results
          (HttpResponse.ok ⟨sql_query, execOk.results, s.1⟩, s.2)

/-! ### Lemmas about the text primitives -/

theorem beginsWith_append_left (p q : List Char) :
    ∀ s : List Char, beginsWith s (p ++ q) = true → beginsWith s p = true := by
  induction p with
  | nil => intro s _; cases s <;> rfl
  | cons a as ih =>
    intro s h
    cases s with
    | nil => simp [beginsWith] at h
    | cons c cs =>
      simp only [List.cons_append, beginsWith, Bool.and_eq_true] at h ⊢
      exact ⟨h.1, ih cs h.2⟩

theorem containsSub_of_beginsWith (s pat : List Char) (h : beginsWith s pat = true) :
    containsSub s pat = true := by
  cases s with
  | nil =>
    cases pat with
    | nil => rfl
    | cons p ps => simp [beginsWith] at h
  | cons c cs => simp [containsSub, h]

theorem containsSub_of_drop (pat : List Char) :
    ∀ (k : Nat) (s : List Char), containsSub (s.drop k) pat = true →
      containsSub s pat = true := by
  intro k
  induction k with
  | zero => intro s h; simpa using h
  | succ k ih =>
    intro s h
    cases s with
    | nil => simpa using h
    | cons c cs =>
      have := ih cs (by simpa using h)
      simp [containsSub, this]

theorem containsSub_cons_split (c : Char) (rest pat : List Char)
    (h : containsSub (c :: rest) pat = false) :
    beginsWith (c :: rest) pat = false ∧ containsSub rest pat = false := by
  simpa [containsSub] using h

/-- A text that does not begin with the fence marker does not begin with
the opening-fence literal either. -/
theorem beginsWith_fenceSql_false (s : List Char) (h : beginsWith s fence3 = false) :
    beginsWith s fenceSql = false := by
  cases hq : beginsWith s fenceSql with
  | false => rfl
  | true =>
    have hsplit : fenceSql = fence3 ++ ('s' :: 'q' :: 'l' :: []) := rfl
    rw [hsplit] at hq
    have := beginsWith_append_left fence3 ('s' :: 'q' :: 'l' :: []) s hq
    rw [this] at h
    cases h

/-- No occurrence of the fence marker in a nonempty `bs` means the text
`bs ++ "\n```"` does not begin with the marker either: an occurrence at
position 0 would either lie inside `bs` or hit the newline. -/
theorem beginsWith_fence_append_false (c : Char) (bs2 : List Char)
    (h : containsSub (c :: bs2) fence3 = false) :
    beginsWith (c :: (bs2 ++ nlFence)) fence3 = false := by
  have hb : beginsWith (c :: bs2) fence3 = false := (containsSub_cons_split c bs2 _ h).1
  have hnb : ('\n' == '`') = false := rfl
  match bs2 with
  | [] =>
    simp [beginsWith, fence3, nlFence, hnb]
  | [d] =>
    simp [beginsWith, fence3, nlFence, hnb]
  | d :: e :: t =>
    simp only [fence3, beginsWith, List.cons_append, List.append_eq] at hb ⊢
    simpa using hb

/-- The greedy whitespace run of `bs ++ t` stays inside `bs` as soon as
`bs` has a non-whitespace element. -/
theorem wsRun_append_of_nonws (t : List Char) :
    ∀ bs : List Char, (∃ x ∈ bs, pyWsChar x = false) →
      wsRun (bs ++ t) = wsRun bs ∧ wsRun bs < bs.length := by
  intro bs
  induction bs with
  | nil => rintro ⟨x, hx, _⟩; simp at hx
  | cons c cs ih =>
    rintro ⟨x, hx, hxw⟩
    cases hw : pyWsChar c with
    | false => simp [wsRun, hw]
    | true =>
      have hxcs : x ∈ cs := by
        rcases List.mem_cons.mp hx with rfl | h
        · exact absurd hw (by simp [hxw])
        · exact h
      obtain ⟨h1, h2⟩ := ih ⟨x, hxcs, hxw⟩
      constructor
      · rw [List.cons_append]
        show (if pyWsChar c then wsRun (cs ++ t) + 1 else 0) =
          if pyWsChar c then wsRun cs + 1 else 0
        rw [hw, h1]
      · show (if pyWsChar c then wsRun cs + 1 else 0) < cs.length + 1
        rw [hw]
        simpa using h2

theorem fenceSubGo_nil (fuel : Nat) (ls : Bool) : fenceSubGo fuel ls [] = [] := by
  cases fuel <;> rfl

theorem firstMatch_none (ls : Bool) (s : List Char)
    (hopen : fenceOpenMatch ls s = none) (hclose : fenceCloseMatch s = none) :
    firstMatch ls s = none := by
  unfold firstMatch
  rw [hopen]
  exact hclose

theorem firstMatch_close (ls : Bool) (s : List Char) (n : Nat)
    (hopen : fenceOpenMatch ls s = none) (hclose : fenceCloseMatch s = some n) :
    firstMatch ls s = some n := by
  unfold firstMatch
  rw [hopen]
  exact hclose

theorem firstMatch_open (ls : Bool) (s : List Char) (n : Nat)
    (hopen : fenceOpenMatch ls s = some n) :
    firstMatch ls s = some n := by
  unfold firstMatch
  rw [hopen]
  rfl

theorem fenceSubGo_step_none (fuel : Nat) (ls : Bool) (c : Char) (rest : List Char)
    (hopen : fenceOpenMatch ls (c :: rest) = none)
    (hclose : fenceCloseMatch (c :: rest) = none) :
    fenceSubGo (fuel + 1) ls (c :: rest) = c :: fenceSubGo fuel (c == '\n') rest := by
  simp only [fenceSubGo, firstMatch_none ls (c :: rest) hopen hclose, Option.elim]

theorem fenceSubGo_step_match (fuel : Nat) (ls : Bool) (c : Char) (rest : List Char)
    (n : Nat) (hm : firstMatch ls (c :: rest) = some n) :
    fenceSubGo (fuel + 1) ls (c :: rest) =
      fenceSubGo fuel (endsWithNewline ((c :: rest).take n)) (rest.drop (n - 1)) := by
  simp only [fenceSubGo, hm, Option.elim]

/-- Identity of the scan on fence-free text: neither branch of the regex
can match anywhere when the fence marker does not occur. -/
theorem fenceSubGo_of_not_contains :
    ∀ (fuel : Nat) (ls : Bool) (s : List Char), containsSub s fence3 = false →
      fenceSubGo fuel ls s = s := by
  intro fuel
  induction fuel with
  | zero => intro ls s _; rfl
  | succ fuel ih =>
    intro ls s h
    cases s with
    | nil => rfl
    | cons c rest =>
      obtain ⟨hb, hrest⟩ := containsSub_cons_split c rest _ h
      have hopen : fenceOpenMatch ls (c :: rest) = none := by
        have h6 := beginsWith_fenceSql_false (c :: rest) hb
        simp [fenceOpenMatch, h6]
      have hclose : fenceCloseMatch (c :: rest) = none := by
        have h3 : beginsWith ((c :: rest).drop (wsRun (c :: rest))) fence3 = false := by
          cases h3 : beginsWith ((c :: rest).drop (wsRun (c :: rest))) fence3 with
          | false => rfl
          | true =>
            have hc : containsSub ((c :: rest).drop (wsRun (c :: rest))) fence3 = true :=
              containsSub_of_beginsWith _ _ h3
            have := containsSub_of_drop fence3 (wsRun (c :: rest)) (c :: rest) hc
            rw [this] at h; cases h
        simp [fenceCloseMatch, h3]
      rw [fenceSubGo_step_none fuel ls c rest hopen hclose]
      rw [ih (c == '\n') rest hrest]

/-- Scan of `bs ++ "\n```"`: as long as `bs` is fence-free and does not
end in whitespace, the scan copies `bs` verbatim and then deletes the
final newline-plus-fence as one match of the second branch. -/
theorem fenceSubGo_body_trailing :
    ∀ (bs : List Char) (fuel : Nat) (ls : Bool),
      bs.length + 1 ≤ fuel →
      containsSub bs fence3 = false →
      (∀ c, bs.getLast? = some c → pyWsChar c = false) →
      fenceSubGo fuel ls (bs ++ nlFence) = bs := by
  intro bs
  induction bs with
  | nil =>
    intro fuel ls hfuel _ _
    obtain ⟨f, rfl⟩ : ∃ f, fuel = f + 1 := ⟨fuel - 1, by omega⟩
    have hnb : ('\n' == '`') = false := rfl
    have hopen : fenceOpenMatch ls ('\n' :: ('`' :: '`' :: '`' :: [])) = none := by
      simp [fenceOpenMatch, fenceSql, beginsWith, hnb]
    have hclose : fenceCloseMatch ('\n' :: ('`' :: '`' :: '`' :: [])) = some 4 := rfl
    rw [show ([] : List Char) ++ nlFence = '\n' :: ('`' :: '`' :: '`' :: []) from rfl]
    rw [fenceSubGo_step_match f ls '\n' ('`' :: '`' :: '`' :: []) 4
      (firstMatch_close ls _ 4 hopen hclose)]
    exact fenceSubGo_nil f _
  | cons c bs2 ih =>
    intro fuel ls hfuel hcont hlast
    obtain ⟨f, rfl⟩ : ∃ f, fuel = f + 1 := ⟨fuel - 1, by omega⟩
    obtain ⟨hb, hrest⟩ := containsSub_cons_split c bs2 _ hcont
    have hbf : beginsWith (c :: (bs2 ++ nlFence)) fence3 = false :=
      beginsWith_fence_append_false c bs2 hcont
    have hopen : fenceOpenMatch ls (c :: (bs2 ++ nlFence)) = none := by
      have h6 := beginsWith_fenceSql_false (c :: (bs2 ++ nlFence)) hbf
      simp [fenceOpenMatch, h6]
    have hclose : fenceCloseMatch (c :: (bs2 ++ nlFence)) = none := by
      cases hw : pyWsChar c with
      | false =>
        have hz : wsRun (c :: (bs2 ++ nlFence)) = 0 := by
          simp [wsRun, hw]
        simp [fenceCloseMatch, hz, hbf]
      | true =>
        have hlast2 : ∃ x ∈ c :: bs2, pyWsChar x = false := by
          refine ⟨(c :: bs2).getLast (by simp), List.getLast_mem _, ?_⟩
          exact hlast _ (List.getLast?_eq_getLast (c :: bs2) (by simp))
        obtain ⟨hwr, hlt⟩ := wsRun_append_of_nonws nlFence (c :: bs2) hlast2
        have hwr2 : wsRun (c :: (bs2 ++ nlFence)) = wsRun (c :: bs2) := by
          rw [← List.cons_append]; exact hwr
        have hdrop : (c :: (bs2 ++ nlFence)).drop (wsRun (c :: bs2)) =
            ((c :: bs2).drop (wsRun (c :: bs2))) ++ nlFence := by
          rw [← List.cons_append]
          exact List.drop_append_of_le_length (Nat.le_of_lt hlt)
        obtain ⟨d, rest2, hdr⟩ :
            ∃ d rest2, (c :: bs2).drop (wsRun (c :: bs2)) = d :: rest2 := by
          rcases he : (c :: bs2).drop (wsRun (c :: bs2)) with _ | ⟨d, rest2⟩
          · exfalso
            have hlen := List.length_drop (wsRun (c :: bs2)) (c :: bs2)
            rw [he] at hlen
            simp only [List.length_nil] at hlen
            omega
          · exact ⟨d, rest2, rfl⟩
        have hcd : containsSub (d :: rest2) fence3 = false := by
          cases hc2 : containsSub (d :: rest2) fence3 with
          | false => rfl
          | true =>
            rw [← hdr] at hc2
            have := containsSub_of_drop fence3 (wsRun (c :: bs2)) (c :: bs2) hc2
            rw [this] at hcont; cases hcont
        have hbf2 : beginsWith (d :: (rest2 ++ nlFence)) fence3 = false :=
          beginsWith_fence_append_false d rest2 hcd
        have hfin : (c :: (bs2 ++ nlFence)).drop (wsRun (c :: (bs2 ++ nlFence))) =
            d :: (rest2 ++ nlFence) := by
          rw [hwr2, hdrop, hdr, List.cons_append]
        simp [fenceCloseMatch, hfin, hbf2]
    have hgoal : fenceSubGo (f + 1) ls ((c :: bs2) ++ nlFence) =
        fenceSubGo (f + 1) ls (c :: (bs2 ++ nlFence)) := by
      rw [List.cons_append]
    rw [hgoal]
    rw [fenceSubGo_step_none f ls c (bs2 ++ nlFence) hopen hclose]
    have hlast3 : ∀ x, bs2.getLast? = some x → pyWsChar x = false := by
      intro x hx
      cases bs2 with
      | nil => simp at hx
      | cons e t =>
        exact hlast x (by rw [List.getLast?_cons_cons]; exact hx)
    have hfuel2 : bs2.length + 1 ≤ f := by
      rw [List.length_cons] at hfuel
      omega
    rw [ih f (c == '\n') hfuel2 hrest hlast3]

/-! ### Claim theorems -/

/-- C6 counterexample: the claim predicts that stripping
`"```sql\n SELECT 1\n```"` yields the interior `" SELECT 1"` unaltered,
but the regex's `\s*` also consumes the interior's leading space, so the
code produces `"SELECT 1"`. -/
theorem C6_counterexample_interior_whitespace :
    strip_code_fence "```sql\n SELECT 1\n```" ≠ " SELECT 1" ∧
    strip_code_fence "```sql\n SELECT 1\n```" = "SELECT 1" := by
  constructor
  · decide
  · decide

/-- C6 (amended): the code-fence stripping transform is the identity on
every text in which the marker `"```"` does not occur; and on a text of
the shape `"```sql\n" ++ body ++ "\n```"` whose nonempty body contains no
marker and neither begins nor ends with whitespace, it removes exactly
the leading and trailing fence lines, returning the body unaltered.
(When the body begins or ends with whitespace, that adjacent whitespace
is removed together with the fence lines.) -/
theorem C6_strip_code_fence_amended :
    (∀ s : String, containsSub s.data fence3 = false → strip_code_fence s = s) ∧
    (∀ body : String, body.data ≠ [] →
      containsSub body.data fence3 = false →
      (∀ c, body.data.head? = some c → pyWsChar c = false) →
      (∀ c, body.data.getLast? = some c → pyWsChar c = false) →
      strip_code_fence ("```sql\n" ++ body ++ "\n```") = body) := by
  constructor
  · intro s h
    unfold strip_code_fence
    rw [fenceSubGo_of_not_contains _ _ _ h]
  · intro body hne hcont hhead hlast
    obtain ⟨c0, t0, hb0⟩ : ∃ c0 t0, body.data = c0 :: t0 := by
      rcases hd : body.data with _ | ⟨c0, t0⟩
      · exact absurd hd hne
      · exact ⟨c0, t0, rfl⟩
    have hw0 : pyWsChar c0 = false := hhead c0 (by rw [hb0]; rfl)
    have hdata : ("```sql\n" ++ body ++ "\n```").data =
        '`' :: '`' :: '`' :: 's' :: 'q' :: 'l' :: '\n' :: ((c0 :: t0) ++ nlFence) := by
      rw [String.data_append, String.data_append, hb0]
      rfl
    have hcont2 : containsSub (c0 :: t0) fence3 = false := by rw [← hb0]; exact hcont
    have hlast2 : ∀ c, (c0 :: t0).getLast? = some c → pyWsChar c = false := by
      rw [← hb0]; exact hlast
    have hopen : fenceOpenMatch true
        ('`' :: '`' :: '`' :: 's' :: 'q' :: 'l' :: '\n' :: ((c0 :: t0) ++ nlFence)) =
        some 7 := by
      have hws : wsRun ((c0 :: t0) ++ nlFence) = 0 := by
        rw [List.cons_append]
        show (if pyWsChar c0 then wsRun (t0 ++ nlFence) + 1 else 0) = 0
        rw [hw0]
        rfl
      have hbeg : beginsWith
          ('`' :: '`' :: '`' :: 's' :: 'q' :: 'l' :: '\n' :: ((c0 :: t0) ++ nlFence))
          fenceSql = true := by
        simp [beginsWith, fenceSql]
      unfold fenceOpenMatch
      rw [hbeg]
      show some (6 + wsRun ('\n' :: ((c0 :: t0) ++ nlFence))) = some 7
      have : wsRun ('\n' :: ((c0 :: t0) ++ nlFence)) =
          wsRun ((c0 :: t0) ++ nlFence) + 1 := by
        show (if pyWsChar '\n' then wsRun ((c0 :: t0) ++ nlFence) + 1 else 0) = _
        rfl
      rw [this, hws]
    unfold strip_code_fence
    rw [hdata]
    have hlen :
        ('`' :: '`' :: '`' :: 's' :: 'q' :: 'l' :: '\n' :: ((c0 :: t0) ++ nlFence)).length + 1 =
        ((c0 :: t0).length + 11) + 1 := by
      simp [nlFence]
    rw [hlen]
    rw [fenceSubGo_step_match ((c0 :: t0).length + 11) true '`'
      ('`' :: '`' :: 's' :: 'q' :: 'l' :: '\n' :: ((c0 :: t0) ++ nlFence)) 7
      (firstMatch_open true _ 7 hopen)]
    show String.mk (fenceSubGo ((c0 :: t0).length + 11)
      (endsWithNewline ['`', '`', '`', 's', 'q', 'l', '\n']) ((c0 :: t0) ++ nlFence)) = body
    rw [fenceSubGo_body_trailing (c0 :: t0) ((c0 :: t0).length + 11) _
      (by omega) hcont2 hlast2]
    rw [← hb0]

/-- C6 amended, witnessed at concrete inputs: stripping is the identity
on `"SELECT 1"` (no marker present), and unwraps
`"```sql\nSELECT 1\n```"` to exactly `"SELECT 1"`. -/
theorem C6_strip_code_fence_amended_witness :
    strip_code_fence "SELECT 1" = "SELECT 1" ∧
    strip_code_fence ("```sql\n" ++ "SELECT 1" ++ "\n```") = "SELECT 1" :=
  ⟨C6_strip_code_fence_amended.1 "SELECT 1" (by decide),
   C6_strip_code_fence_amended.2 "SELECT 1" (by decide) (by decide)
     (by decide) (by decide)⟩

/-- C1: `is_safe_select` accepts a text only when every statement parsed
from it has type `"SELECT"`; in particular a SELECT followed by a DELETE
after a semicolon is rejected. -/
theorem C1_safe_only_if_all_select :
    (∀ sql : String, is_safe_select sql = true →
      ∀ stmt ∈ sqlparse_parse sql, get_type stmt = "SELECT") ∧
    is_safe_select "SELECT * FROM t; DELETE FROM t" = false := by
  constructor
  · intro sql h stmt hmem
    have := List.all_eq_true.mp h stmt hmem
    simpa using this
  · decide

/-- C1 witness: `"SELECT 1"` passes validation and the theorem yields
the statement classification of its single parsed statement. -/
theorem C1_safe_only_if_all_select_witness :
    get_type "SELECT 1" = "SELECT" :=
  C1_safe_only_if_all_select.1 "SELECT 1" (by decide) "SELECT 1" (by decide)

/-- C5 counterexample: the claim states `is_safe_select "" = false`, but
`sqlparse.parse("")` yields zero statements, the loop body never runs,
and the function returns `True`. -/
theorem C5_counterexample_empty_accepted :
    ¬ (is_safe_select "" = false) := by
  decide

/-- C5 (amended): `is_safe_select` is total (it never throws), it
returns `false` for every input some parsed statement of which is not of
type `"SELECT"` (this covers non-SELECT and unparseable statements,
classified `"UNKNOWN"`), but the empty input parses to zero statements
and is vacuously accepted: `is_safe_select "" = true`. -/
theorem C5_rejects_nonselect_amended :
    is_safe_select "" = true ∧
    (∀ sql stmt : String, stmt ∈ sqlparse_parse sql → get_type stmt ≠ "SELECT" →
      is_safe_select sql = false) := by
  constructor
  · decide
  · intro sql stmt hmem hty
    cases hb : is_safe_select sql with
    | false => rfl
    | true =>
      exact absurd (by simpa using List.all_eq_true.mp hb stmt hmem) hty

/-- C5 amended witness: `"DROP TABLE users"` parses to one DROP
statement and is rejected. -/
theorem C5_rejects_nonselect_amended_witness :
    is_safe_select "DROP TABLE users" = false :=
  C5_rejects_nonselect_amended.2 "DROP TABLE users" "DROP TABLE users"
    (by decide) (by decide)

/-- C2: whenever the transformed query text fails `is_safe_select`, the
execute handler rejects the request with the unsafe-query failure (the
`"Only SELECT queries are allowed"` rejection, re-wrapped by the
handler's own `except Exception` into a 500 whose detail is `str` of the
original 400) and control never reaches the connection-opening step,
whatever the database would have answered. -/
theorem C2_unsafe_rejected_no_connection :
    ∀ (db : String → DbResult) (dbType raw : String),
      is_safe_select (strip_code_fence (pyStrip raw)) = false →
      execute_query db dbType raw =
        (HttpResponse.error 500
          (http_exception_str 400 "Only SELECT queries are allowed"), false) := by
  intro db dbType raw h
  unfold execute_query
  simp only [h]
  rfl

/-- C2 witness: `"DROP TABLE users"` is rejected and the database oracle
is never consulted. -/
theorem C2_unsafe_rejected_no_connection_witness :
    execute_query (fun _ => DbResult.ok []) "postgresql" "DROP TABLE users" =
      (HttpResponse.error 500
        (http_exception_str 400 "Only SELECT queries are allowed"), false) :=
  C2_unsafe_rejected_no_connection (fun _ => DbResult.ok [])
    "postgresql" "DROP TABLE users" (by decide)

/-- C7: the claim says a validation rejection carries HTTP status 400,
but the `HTTPException(400)` raised inside the handler's `try` block is
caught by the handler's own blanket `except Exception` clause and
re-raised with status 500 (its detail string still embedding the
original 400).  A SQL execution failure, by contrast, does carry 400 as
the claim states. -/
theorem C7_validation_rejection_is_500 :
    execute_query (fun _ => DbResult.ok []) "postgresql" "DROP TABLE users" =
      (HttpResponse.error 500 "400: Only SELECT queries are allowed", false) ∧
    execute_query (fun _ => DbResult.sqlError "boom") "postgresql" "SELECT 1" =
      (HttpResponse.error 400 "SQL execution failed: boom", true) := by
  constructor
  · decide
  · decide

/-- C10: every successful execute response carries as its `"query"`
field the stripped, fence-removed transform of the raw input; that same
text is what passed validation and was sent to the database. -/
theorem C10_response_query_is_transformed :
    ∀ (db : String → DbResult) (dbType raw q : String) (rows : List Row) (opened : Bool),
      execute_query db dbType raw = (HttpResponse.ok ⟨q, rows⟩, opened) →
      q = strip_code_fence (pyStrip raw) ∧ is_safe_select q = true ∧
        db q = DbResult.ok rows := by
  intro db dbType raw q rows opened h
  unfold execute_query at h
  by_cases hv : is_safe_select (strip_code_fence (pyStrip raw)) = false
  · rw [if_pos hv] at h
    exact absurd h (by simp)
  · rw [if_neg hv] at h
    by_cases hd : dbType ≠ "postgresql" ∧ dbType ≠ "mysql"
    · rw [if_pos hd] at h
      exact absurd h (by simp)
    · rw [if_neg hd] at h
      rcases he : db (strip_code_fence (pyStrip raw)) with rows2 | m | m <;> rw [he] at h
      · simp only [Prod.mk.injEq, HttpResponse.ok.injEq, ExecOk.mk.injEq] at h
        obtain ⟨⟨hq, hr⟩, hop⟩ := h
        subst hq
        subst hr
        refine ⟨rfl, ?_, he⟩
        cases hb : is_safe_select (strip_code_fence (pyStrip raw)) with
        | false => exact absurd hb hv
        | true => rfl
      · exact absurd h (by simp)
      · exact absurd h (by simp)

/-- C10 witness: a fenced input `"```sql\nSELECT 1\n```"` executes as the
transformed text `"SELECT 1"`, which is also echoed in the response. -/
theorem C10_response_query_is_transformed_witness :
    "SELECT 1" = strip_code_fence (pyStrip "```sql\nSELECT 1\n```") ∧
    is_safe_select "SELECT 1" = true ∧
    (fun _ => DbResult.ok [[("a", "1")]]) "SELECT 1" = DbResult.ok [[("a", "1")]] :=
  C10_response_query_is_transformed (fun _ => DbResult.ok [[("a", "1")]])
    "postgresql" "```sql\nSELECT 1\n```" "SELECT 1" [[("a", "1")]] true (by decide)

/-- C4 counterexample: a request whose `aiProvider` is `"anthropic"`
(neither `"openai"` nor `"gemini"`) is not rejected: the generation
succeeds and the Gemini provider is the one invoked, because the source
dispatches with `if aiProvider == "openai" ... else: # Gemini API`. -/
theorem C4_counterexample_unknown_provider_is_gemini :
    generate_sql_with_ai (fun _ _ => Except.ok "SELECT 1")
      ⟨"anthropic", "key", "postgresql", "list users", ""⟩ =
      (Except.ok "SELECT 1", some Provider.gemini) := by
  rfl

/-- C4 (amended): there is no `UnsupportedProvider` rejection; the model
provider is always invoked, with OpenAI selected exactly when
`aiProvider = "openai"` and the Gemini branch taken for every other
value. -/
theorem C4_provider_dispatch_amended :
    ∀ (callModel : Provider → String → Except String String) (req : GenRequest),
      (generate_sql_with_ai callModel req).2 =
        some (if req.aiProvider == "openai" then Provider.openai else Provider.gemini) := by
  intro callModel req
  simp only [generate_sql_with_ai]
  rcases hc : callModel (if req.aiProvider == "openai" then Provider.openai
      else Provider.gemini) (generation_prompt req) with e | t
  · simp [hc]
  · simp only [hc]
    split
    · rfl
    · rfl

/-- C8: whenever a generation request succeeds with an empty result set,
the summary is the fixed string `"No results found."` and no
summarization model call was made. -/
theorem C8_empty_results_fixed_summary :
    ∀ (callModel : Provider → String → Except String String) (db : String → DbResult)
      (req : GenRequest) (r : GenerateOk) (p : Option String),
      generate_query callModel db req = (HttpResponse.ok r, p) →
      r.results = [] →
      r.summary = "No results found." ∧ p = none := by
  intro cm db req r p h hr
  simp only [generate_query] at h
  split at h
  · exact absurd h (by simp)
  · rename_i sql prov hg
    split at h
    · exact absurd h (by simp)
    · rename_i execOk opened he
      simp only [Prod.mk.injEq, HttpResponse.ok.injEq] at h
      obtain ⟨hr2, hp⟩ := h
      subst hr2
      subst hp
      have hres : execOk.results = [] := hr
      refine ⟨?_, ?_⟩
      · show (generate_summary cm { req with query := sql } execOk.results).1 =
          "No results found."
        rw [hres]
        rfl
      · show (generate_summary cm { req with query := sql } execOk.results).2 = none
        rw [hres]
        rfl

/-- C8 witness: with a database oracle returning no rows, the generation
pipeline returns the fixed summary and records no summarization prompt. -/
theorem C8_empty_results_fixed_summary_witness :
    (GenerateOk.mk "SELECT 1" [] "No results found.").summary = "No results found." ∧
    (none : Option String) = none :=
  C8_empty_results_fixed_summary (fun _ _ => Except.ok "SELECT 1")
    (fun _ => DbResult.ok []) ⟨"openai", "k", "postgresql", "how many users", ""⟩
    ⟨"SELECT 1", [], "No results found."⟩ none (by rfl) rfl

/-- C9: if SQL generation and execution succeed but the summarization
model call fails, the request still succeeds with `sql_query` and
`results` populated and the summary equal to the fixed row-count
message `"Found N results."`. -/
theorem C9_summary_failure_degrades :
    ∀ (cm : Provider → String → Except String String) (db : String → DbResult)
      (req : GenRequest) (sql e : String) (prov : Option Provider)
      (er : ExecOk) (opened : Bool),
      generate_sql_with_ai cm req = (Except.ok sql, prov) →
      execute_query db req.dbType sql = (HttpResponse.ok er, opened) →
      er.results ≠ [] →
      cm (if req.aiProvider == "openai" then Provider.openai else Provider.gemini)
        (summary_prompt sql er.results) = Except.error e →
      generate_query cm db req =
        (HttpResponse.ok ⟨sql, er.results,
          "Found " ++ toString er.results.length ++ " results."⟩,
         some (summary_prompt sql er.results)) := by
  intro cm db req sql e prov er opened h1 h2 hne h3
  have hie : er.results.isEmpty = false := by
    cases hl : er.results with
    | nil => exact absurd hl hne
    | cons a as => rfl
  unfold generate_query
  simp only [h1]
  simp only [h2]
  unfold generate_summary
  simp only [hie]
  simp only [h3]
  rfl

set_option maxRecDepth 16384 in
/-- C9 witness: a concrete pipeline whose model oracle fails exactly on
the summarization prompt still returns the executed rows with the
row-count summary. -/
theorem C9_summary_failure_degrades_witness :
    generate_query
      (fun _ p => if p == summary_prompt "SELECT 1" [[("id", "1")]]
        then Except.error "down" else Except.ok "SELECT 1")
      (fun _ => DbResult.ok [[("id", "1")]])
      ⟨"openai", "k", "postgresql", "how many users", ""⟩ =
      (HttpResponse.ok ⟨"SELECT 1", [[("id", "1")]], "Found 1 results."⟩,
       some (summary_prompt "SELECT 1" [[("id", "1")]])) :=
  C9_summary_failure_degrades
    (fun _ p => if p == summary_prompt "SELECT 1" [[("id", "1")]]
      then Except.error "down" else Except.ok "SELECT 1")
    (fun _ => DbResult.ok [[("id", "1")]])
    ⟨"openai", "k", "postgresql", "how many users", ""⟩
    "SELECT 1" "down" (some Provider.openai) ⟨"SELECT 1", [[("id", "1")]]⟩ true
    (by rfl) (by rfl) (by decide) (by rfl)

set_option maxRecDepth 16384 in
/-- C3: the claim says the summarization prompt embeds the original
natural-language question, but `generate_query` executes
`request.query = sql_query` before calling `generate_summary`, so the
prompt's `User Question:` slot receives the generated SQL instead.  At a
concrete request whose question is `"show all users"` generating
`"SELECT * FROM users"`, the prompt passed to the summarization model
contains the SQL and does not contain the question (while the row count
and the first-three-rows sample are embedded as claimed). -/
theorem C3_summary_prompt_has_sql_not_question :
    (generate_query (fun _ _ => Except.ok "SELECT * FROM users")
        (fun _ => DbResult.ok [[("id", "1")]])
        ⟨"openai", "k", "postgresql", "show all users", "Table: users"⟩).2 =
      some (summary_prompt "SELECT * FROM users" [[("id", "1")]]) ∧
    containsSub (summary_prompt "SELECT * FROM users" [[("id", "1")]]).data
      "show all users".data = false ∧
    containsSub (summary_prompt "SELECT * FROM users" [[("id", "1")]]).data
      "SELECT * FROM users".data = true ∧
    containsSub (summary_prompt "SELECT * FROM users" [[("id", "1")]]).data
      "Results Count: 1".data = true := by
  refine ⟨by decide, by decide, by decide, by decide⟩

end SqlChat
